import Mathlib

/-
Verification of the Okta probe driver (pkg/nozzle/okta/okta.go).

The Go code is shallowly embedded: JSON values are an inductive type, the
HTTP layer is an explicit `World` (the rate limiter's outcome and a
transport function from requests to responses), and `Nozzle.Login` is a
pure function that, besides its result, returns the list of HTTP requests
it sent, so that ordering and "no request sent" properties are statable.
-/

namespace Okta

/-- A JSON value, as produced by Go's `encoding/json` from a response body.
Objects keep their fields as an ordered association list. -/
inductive Json where
  | null
  | bool (b : Bool)
  | num (n : Int)
  | str (s : String)
  | arr (elems : List Json)
  | obj (fields : List (String × Json))

/-- Field lookup in a decoded JSON object. Go's `encoding/json` lets a later
duplicate key overwrite an earlier one, so the LAST binding of the key wins. -/
def lookupLast (k : String) : List (String × Json) → Option Json
  | [] => none
  | (k', v) :: rest =>
    match lookupLast k rest with
    | some v' => some v'
    | none => if k' == k then some v else none

/-- Decoding a JSON object field into a Go `string` struct field: an absent
field or JSON `null` leaves the zero value `""`; a JSON string is taken as
is; any other JSON value is a type error. -/
def decodeStringField (fields : List (String × Json)) (k : String) :
    Except String String :=
  match lookupLast k fields with
  | none => .ok ""
  | some .null => .ok ""
  | some (.str s) => .ok s
  | some _ => .error ("json: cannot unmarshal value into string field " ++ k)

/-- Decoding a JSON object field into a Go `map[string]interface\x7b\x7d`
struct field: absent or `null` leaves the zero (nil) map, modelled as `[]`;
a JSON object gives its bindings; any other JSON value is a type error. -/
def decodeMapField (fields : List (String × Json)) (k : String) :
    Except String (List (String × Json)) :=
  match lookupLast k fields with
  | none => .ok []
  | some .null => .ok []
  | some (.obj m) => .ok m
  | some _ => .error ("json: cannot unmarshal value into map field " ++ k)

/-- Mirror of `oktaAuthResponse` (okta.go lines 80-84): the JSON shape of an
Okta 200 response, with fields `status`, `factorResult` and `_embedded`. -/
structure OktaAuthResponse where
  status : String := ""
  factor : String := ""
  embedded : List (String × Json) := []

/-- Go's `json.Decoder.Decode` of a JSON value into `oktaAuthResponse`: the
top-level value must be an object (or `null`, which leaves the zero struct);
each known field is decoded by its JSON tag, unknown fields are ignored. -/
def decodeOktaAuthResponse : Json → Except String OktaAuthResponse
  | .obj fields => do
    let status ← decodeStringField fields "status"
    let factor ← decodeStringField fields "factorResult"
    let embedded ← decodeMapField fields "_embedded"
    .ok { status := status, factor := factor, embedded := embedded }
  | .null => .ok {}
  | _ => .error "json: cannot unmarshal value into oktaAuthResponse"

/-- An HTTP response body either failed to parse as JSON (`none`) or parsed
into a JSON value. Decoding the body combines the parse and the struct
decode, exactly the two ways `json.NewDecoder(resp.Body).Decode(&res)` on
okta.go line 123 can fail. -/
def decodeBody : Option Json → Except String OktaAuthResponse
  | none => .error "invalid JSON in response body"
  | some j => decodeOktaAuthResponse j

/-- Mirror of `event.AuthResponse` as used by okta.go: the normalized
outcome of one attempt. Defaults are Go zero values. -/
structure AuthResponse where
  valid : Bool := false
  mfa : Bool := false
  locked : Bool := false
  rateLimited : Bool := false
  metadata : List (String × Json) := []

/-- An HTTP request as built by `Login`: method, URL, headers, JSON body. -/
structure HttpRequest where
  method : String
  url : String
  headers : List (String × String)
  body : Json

/-- An HTTP response: status code, and the body abstracted to `Option Json`
(`none` when the body text is not valid JSON). -/
structure HttpResponse where
  statusCode : Nat
  body : Option Json

/-- The errors `Login` and `New` can return, one constructor per `return
nil, err` site of okta.go, tagged with the spec's error taxonomy. -/
inductive Err where
  | limiterWait (msg : String)
  | badSuffix (msg : String)
  | network (msg : String)
  | jsonDecode (msg : String)
  | unhandledStatus (code : Nat)
  | config (msg : String)
deriving DecidableEq

/-- The spec's `ProtocolError` class: an unexpected HTTP status code, or a
200 response whose body cannot be decoded into the expected shape. -/
def Err.isProtocolError : Err → Bool
  | .jsonDecode _ => true
  | .unhandledStatus _ => true
  | _ => false

/-- `FrozenUserAgent` (okta.go lines 36-37), byte for byte including the
missing space before `AppleWebKit`. -/
def FrozenUserAgent : String :=
  "Mozilla/5.0 (Windows NT 10.0; Win64; x64)" ++
    "AppleWebKit/537.36 (KHTML, like Gecko) Chrome/75.0.3764.0 Safari/537.36"

/-- Mirror of `Nozzle` (okta.go lines 71-78). -/
structure Nozzle where
  Subdomain : String
  UserAgent : String

/-- Mirror of `Driver` (okta.go line 45), an empty struct. -/
structure Driver

/-- Mirror of `Driver.New` (okta.go lines 59-69): require the `subdomain`
option, otherwise build a `Nozzle` with the frozen user agent. The options
map is modelled as an association list. -/
def Driver.New (_d : Driver) (opts : List (String × String)) :
    Except Err Nozzle :=
  match opts.lookup "subdomain" with
  | none => .error (.config "okta nozzle requires 'subdomain' config parameter")
  | some subdomain => .ok { Subdomain := subdomain, UserAgent := FrozenUserAgent }

/-- Modelled from the spec: the host component of a URL, for
`util.ValidateURLSuffix` (pkg/util, not under src/). The spec (section 4.3
step 3 and section 3) requires parsing the constructed URL and checking its
host; the host of an `https://` URL is everything after the scheme up to
the first `/`, `?` or `#`. Computed as a character list. -/
def hostChars (url : String) : Option (List Char) :=
  if ("https://".data).isPrefixOf url.data then
    some ((url.data.drop 8).takeWhile fun c => c != '/' && c != '?' && c != '#')
  else none

/-- Modelled from the spec: `util.ValidateURLSuffix` (pkg/util, not under
src/). Per section 3 and step 3 of section 4.3, the request URL's host must
end with the provider's fixed root domain suffix; otherwise the call fails
with a security/config error before any request is sent. -/
def ValidateURLSuffix (url sfx : String) : Except String Unit :=
  match hostChars url with
  | none => .error "url is not an https url"
  | some h =>
    if sfx.data.isSuffixOf h then .ok ()
    else .error ("url host does not end in " ++ sfx)

/-- The authentication URL built on okta.go line 96 by formatting the
subdomain into the fixed template. -/
def authURL (n : Nozzle) : String :=
  "https://" ++ n.Subdomain ++ ".okta.com/api/v1/authn"

/-- The POST request built on okta.go lines 102-113: JSON credential body
(Go marshals map keys in sorted order, so `password` before `username`),
`Content-Type` and `User-Agent` headers. -/
def buildRequest (n : Nozzle) (username password : String) : HttpRequest :=
  { method := "POST"
    url := authURL n
    headers := [("Content-Type", "application/json"), ("User-Agent", n.UserAgent)]
    body := Json.obj [("password", Json.str password), ("username", Json.str username)] }

/-- The environment a `Login` call runs in: the outcome of
`RateLimiter.Wait` (`some msg` when the wait returns an error), and the
network transport, mapping the request `http.DefaultClient.Do` sends to a
transport error or an HTTP response. -/
structure World where
  limiterResult : Option String
  transport : HttpRequest → Except String HttpResponse

/-- Mirror of `Nozzle.Login` (okta.go lines 89-146), also returning the
list of HTTP requests sent. Control flow in source order: rate-limiter
wait, URL construction and suffix validation, request build and send, then
the status-code switch (200 with JSON decode, 401, 429, default). -/
def Nozzle.Login (n : Nozzle) (username password : String) (w : World) :
    Except Err AuthResponse × List HttpRequest :=
  match w.limiterResult with
  | some e => (.error (.limiterWait e), [])
  | none =>
    match ValidateURLSuffix (authURL n) ".okta.com" with
    | .error e => (.error (.badSuffix e), [])
    | .ok _ =>
      let req := buildRequest n username password
      match w.transport req with
      | .error e => (.error (.network e), [req])
      | .ok resp =>
        if resp.statusCode = 200 then
          match decodeBody resp.body with
          | .error e => (.error (.jsonDecode e), [req])
          | .ok res =>
            (.ok { valid := res.status != "LOCKED_OUT"
                   mfa := res.status == "MFA_REQUIRED"
                   locked := res.status == "LOCKED_OUT"
                   metadata := res.embedded }, [req])
        else if resp.statusCode = 401 then
          (.ok { valid := false }, [req])
        else if resp.statusCode = 429 then
          (.ok { rateLimited := true }, [req])
        else
          (.error (.unhandledStatus resp.statusCode), [req])

end Okta

namespace Okta

/-- A world whose rate limiter grants the permit and whose transport
answers every request with the one fixed response. -/
def respWorld (code : Nat) (body : Option Json) : World :=
  { limiterResult := none, transport := fun _ => .ok ⟨code, body⟩ }

/-- C1: for every HTTP response with status 200 whose body decodes into the
fields `status`, `factorResult` and `_embedded`, `Login` returns an outcome
with `valid = (status != "LOCKED_OUT")`, `mfaRequired = (status ==
"MFA_REQUIRED")`, `lockedOut = (status == "LOCKED_OUT")` and `metadata`
equal to the decoded `_embedded` mapping. -/
theorem login_200_classifies_status (n : Nozzle) (u p : String) (w : World)
    (resp : HttpResponse) (r : OktaAuthResponse)
    (hlim : w.limiterResult = none)
    (hval : ValidateURLSuffix (authURL n) ".okta.com" = .ok ())
    (htr : w.transport (buildRequest n u p) = .ok resp)
    (hst : resp.statusCode = 200)
    (hdec : decodeBody resp.body = .ok r) :
    (n.Login u p w).fst =
      .ok { valid := r.status != "LOCKED_OUT"
            mfa := r.status == "MFA_REQUIRED"
            locked := r.status == "LOCKED_OUT"
            rateLimited := false
            metadata := r.embedded } := by
  simp [Nozzle.Login, hlim, hval, htr, hst, hdec]

/-- Witness for C1: a concrete 200 response with body
`{"status":"MFA_REQUIRED"}` yields `valid = true, mfaRequired = true`. -/
theorem login_200_classifies_status_witness :
    (Nozzle.Login ⟨"example", FrozenUserAgent⟩ "u" "p"
        (respWorld 200 (some (.obj [("status", Json.str "MFA_REQUIRED")])))).fst =
      .ok { valid := true, mfa := true, locked := false, rateLimited := false,
            metadata := [] } := by
  have h := login_200_classifies_status ⟨"example", FrozenUserAgent⟩ "u" "p"
      (respWorld 200 (some (.obj [("status", Json.str "MFA_REQUIRED")])))
      ⟨200, some (.obj [("status", Json.str "MFA_REQUIRED")])⟩
      ⟨"MFA_REQUIRED", "", []⟩ rfl rfl rfl rfl rfl
  exact h

/-- C2: when the organization identifier makes the interpolated URL's host
not end in the provider's root-domain suffix, `Login` fails with the
security/config error and sends no HTTP request; the check runs on every
call that obtains a rate-limit permit. -/
theorem login_rejects_foreign_host (n : Nozzle) (u p : String) (w : World)
    (h : List Char)
    (hlim : w.limiterResult = none)
    (hh : hostChars (authURL n) = some h)
    (hbad : ".okta.com".data.isSuffixOf h = false) :
    n.Login u p w =
      (.error (.badSuffix ("url host does not end in " ++ ".okta.com")), []) := by
  simp [Nozzle.Login, hlim, ValidateURLSuffix, hh, hbad]

/-- Witness for C2: the identifier `evil.com/x#` puts host `evil.com` in
the URL, so the login is refused with no request sent. -/
theorem login_rejects_foreign_host_witness :
    Nozzle.Login ⟨"evil.com/x#", FrozenUserAgent⟩ "u" "p" (respWorld 200 none) =
      (.error (.badSuffix ("url host does not end in " ++ ".okta.com")), []) :=
  login_rejects_foreign_host ⟨"evil.com/x#", FrozenUserAgent⟩ "u" "p"
    (respWorld 200 none) ("evil.com".data) rfl rfl rfl

/-- C3: given a permit, a validated URL and a transported response, `Login`
fails with a `ProtocolError` exactly when the status code is outside
200/401/429 (and then the error names that status code) or the status is
200 and the body does not decode. -/
theorem login_protocol_error_iff (n : Nozzle) (u p : String) (w : World)
    (resp : HttpResponse)
    (hlim : w.limiterResult = none)
    (hval : ValidateURLSuffix (authURL n) ".okta.com" = .ok ())
    (htr : w.transport (buildRequest n u p) = .ok resp) :
    ((∃ e, (n.Login u p w).fst = .error e ∧ e.isProtocolError = true) ↔
      (¬(resp.statusCode = 200 ∨ resp.statusCode = 401 ∨ resp.statusCode = 429) ∨
        (resp.statusCode = 200 ∧ ∃ m, decodeBody resp.body = .error m))) ∧
    (¬(resp.statusCode = 200 ∨ resp.statusCode = 401 ∨ resp.statusCode = 429) →
      (n.Login u p w).fst = .error (.unhandledStatus resp.statusCode)) := by
  by_cases h200 : resp.statusCode = 200
  · cases hdec : decodeBody resp.body with
    | error m =>
      have hr : (n.Login u p w).fst = .error (.jsonDecode m) := by
        simp [Nozzle.Login, hlim, hval, htr, h200, hdec]
      refine ⟨⟨fun _ => Or.inr ⟨h200, m, rfl⟩, fun _ => ⟨.jsonDecode m, hr, rfl⟩⟩, ?_⟩
      intro hco; exact absurd (Or.inl h200) hco
    | ok r =>
      have hr : (n.Login u p w).fst =
          .ok { valid := r.status != "LOCKED_OUT", mfa := r.status == "MFA_REQUIRED",
                locked := r.status == "LOCKED_OUT", rateLimited := false,
                metadata := r.embedded } := by
        simp [Nozzle.Login, hlim, hval, htr, h200, hdec]
      constructor
      · constructor
        · rintro ⟨e, he, _⟩; rw [hr] at he; cases he
        · rintro (hco | ⟨_, m, hm⟩)
          · exact absurd (Or.inl h200) hco
          · cases hm
      · intro hco; exact absurd (Or.inl h200) hco
  · by_cases h401 : resp.statusCode = 401
    · have hr : (n.Login u p w).fst = .ok { valid := false } := by
        simp [Nozzle.Login, hlim, hval, htr, h200, h401]
      constructor
      · constructor
        · rintro ⟨e, he, _⟩; rw [hr] at he; cases he
        · rintro (hco | ⟨h, _⟩)
          · exact absurd (Or.inr (Or.inl h401)) hco
          · exact absurd h h200
      · intro hco; exact absurd (Or.inr (Or.inl h401)) hco
    · by_cases h429 : resp.statusCode = 429
      · have hr : (n.Login u p w).fst = .ok { rateLimited := true } := by
          simp [Nozzle.Login, hlim, hval, htr, h200, h401, h429]
        constructor
        · constructor
          · rintro ⟨e, he, _⟩; rw [hr] at he; cases he
          · rintro (hco | ⟨h, _⟩)
            · exact absurd (Or.inr (Or.inr h429)) hco
            · exact absurd h h200
        · intro hco; exact absurd (Or.inr (Or.inr h429)) hco
      · have hr : (n.Login u p w).fst = .error (.unhandledStatus resp.statusCode) := by
          simp [Nozzle.Login, hlim, hval, htr, h200, h401, h429]
        refine ⟨⟨fun _ => Or.inl ?_, fun _ => ⟨.unhandledStatus resp.statusCode, hr, rfl⟩⟩,
          fun _ => hr⟩
        rintro (h | h | h)
        · exact h200 h
        · exact h401 h
        · exact h429 h

/-- Witness for C3: a concrete 500 response makes `Login` fail with the
error naming status 500 and no outcome is produced. -/
theorem login_protocol_error_iff_witness :
    (Nozzle.Login ⟨"example", FrozenUserAgent⟩ "u" "p" (respWorld 500 none)).fst =
      .error (.unhandledStatus 500) :=
  (login_protocol_error_iff ⟨"example", FrozenUserAgent⟩ "u" "p" (respWorld 500 none)
      ⟨500, none⟩ rfl rfl rfl).2 (by decide)

/-- C4: every 429 response, whatever its body, makes `Login` return, with
no error, an outcome with only `rateLimited` set. -/
theorem login_429_rate_limited (n : Nozzle) (u p : String) (w : World)
    (resp : HttpResponse)
    (hlim : w.limiterResult = none)
    (hval : ValidateURLSuffix (authURL n) ".okta.com" = .ok ())
    (htr : w.transport (buildRequest n u p) = .ok resp)
    (hst : resp.statusCode = 429) :
    (n.Login u p w).fst =
      .ok { valid := false, mfa := false, locked := false, rateLimited := true,
            metadata := [] } := by
  simp [Nozzle.Login, hlim, hval, htr, hst]

/-- Witness for C4: a concrete 429 response with a non-JSON-object body
still yields the rate-limited outcome. -/
theorem login_429_rate_limited_witness :
    (Nozzle.Login ⟨"example", FrozenUserAgent⟩ "u" "p"
        (respWorld 429 (some (.str "slow down")))).fst =
      .ok { valid := false, mfa := false, locked := false, rateLimited := true,
            metadata := [] } :=
  login_429_rate_limited ⟨"example", FrozenUserAgent⟩ "u" "p"
    (respWorld 429 (some (.str "slow down"))) ⟨429, some (.str "slow down")⟩
    rfl rfl rfl rfl

/-- C5: every 401 response, whatever its body (it is never parsed), makes
`Login` return, with no error, an outcome with all fields at their
defaults, in particular `valid = false`. -/
theorem login_401_invalid (n : Nozzle) (u p : String) (w : World)
    (resp : HttpResponse)
    (hlim : w.limiterResult = none)
    (hval : ValidateURLSuffix (authURL n) ".okta.com" = .ok ())
    (htr : w.transport (buildRequest n u p) = .ok resp)
    (hst : resp.statusCode = 401) :
    (n.Login u p w).fst =
      .ok { valid := false, mfa := false, locked := false, rateLimited := false,
            metadata := [] } := by
  simp [Nozzle.Login, hlim, hval, htr, hst]

/-- Witness for C5: a concrete 401 response with an undecodable body still
yields the invalid-credential outcome. -/
theorem login_401_invalid_witness :
    (Nozzle.Login ⟨"example", FrozenUserAgent⟩ "u" "p" (respWorld 401 none)).fst =
      .ok { valid := false, mfa := false, locked := false, rateLimited := false,
            metadata := [] } :=
  login_401_invalid ⟨"example", FrozenUserAgent⟩ "u" "p" (respWorld 401 none)
    ⟨401, none⟩ rfl rfl rfl rfl

/-- C6: construction fails with the config error naming `subdomain` exactly
when that option key is absent, and otherwise yields a nozzle whose
subdomain is the supplied value and whose user agent is the frozen one. -/
theorem new_subdomain_required (d : Driver) (opts : List (String × String)) :
    (opts.lookup "subdomain" = none →
      Driver.New d opts =
        .error (.config "okta nozzle requires 'subdomain' config parameter")) ∧
    (∀ v, opts.lookup "subdomain" = some v →
      Driver.New d opts = .ok { Subdomain := v, UserAgent := FrozenUserAgent }) := by
  constructor
  · intro h; simp [Driver.New, h]
  · intro v h; simp [Driver.New, h]

/-- Witness for C6: empty options are rejected with the config error;
options carrying `subdomain` produce the driver value. -/
theorem new_subdomain_required_witness :
    Driver.New ⟨⟩ [] =
      .error (.config "okta nozzle requires 'subdomain' config parameter") ∧
    Driver.New ⟨⟩ [("subdomain", "example")] =
      .ok { Subdomain := "example", UserAgent := FrozenUserAgent } :=
  ⟨(new_subdomain_required ⟨⟩ []).1 rfl,
   (new_subdomain_required ⟨⟩ [("subdomain", "example")]).2 "example" rfl⟩

/-- C7: if the rate-limiter wait fails, `Login` propagates that error and
sends no HTTP request; conversely, whenever any request was sent, the
permit had been obtained. -/
theorem login_permit_before_request (n : Nozzle) (u p : String) (w : World) :
    (∀ e, w.limiterResult = some e →
      n.Login u p w = (.error (.limiterWait e), [])) ∧
    ((n.Login u p w).snd ≠ [] → w.limiterResult = none) := by
  constructor
  · intro e he; simp [Nozzle.Login, he]
  · intro hne
    cases hl : w.limiterResult with
    | none => rfl
    | some e =>
      exact absurd (show (n.Login u p w).snd = [] by simp [Nozzle.Login, hl]) hne

/-- Witness for C7: a world whose limiter wait reports cancellation makes
`Login` return that very error with zero requests sent. -/
theorem login_permit_before_request_witness :
    Nozzle.Login ⟨"example", FrozenUserAgent⟩ "u" "p"
        ⟨some "context canceled", fun _ => .error "unreachable"⟩ =
      (.error (.limiterWait "context canceled"), []) :=
  (login_permit_before_request ⟨"example", FrozenUserAgent⟩ "u" "p"
    ⟨some "context canceled", fun _ => .error "unreachable"⟩).1 "context canceled" rfl

/-- C9 counterexample: constructing with the `subdomain` option present but
equal to the empty string succeeds and yields a driver whose organization
identifier is the empty string, so construction does not guarantee a
non-empty identifier. -/
theorem new_empty_subdomain_accepted :
    Driver.New ⟨⟩ [("subdomain", "")] =
      .ok { Subdomain := "", UserAgent := FrozenUserAgent } := rfl

/-- C9 (amended): every successfully constructed nozzle's organization
identifier equals the supplied `subdomain` option value — which may be
empty — so it is non-empty exactly when the supplied value is. -/
theorem new_organization_id_is_supplied_value (d : Driver)
    (opts : List (String × String)) (nz : Nozzle)
    (hok : Driver.New d opts = .ok nz) :
    opts.lookup "subdomain" = some nz.Subdomain := by
  unfold Driver.New at hok
  cases h : opts.lookup "subdomain" with
  | none => rw [h] at hok; cases hok
  | some v => rw [h] at hok; cases hok; rfl

/-- Witness for the amended C9 at a concrete option list. -/
theorem new_organization_id_is_supplied_value_witness :
    List.lookup "subdomain" [("subdomain", "example")] =
      some (Nozzle.Subdomain { Subdomain := "example", UserAgent := FrozenUserAgent }) :=
  new_organization_id_is_supplied_value ⟨⟩ [("subdomain", "example")]
    { Subdomain := "example", UserAgent := FrozenUserAgent } rfl

/-- C10: a 200 response whose body decodes but whose `status` field is
neither `LOCKED_OUT` nor `MFA_REQUIRED` — including the empty string left
by an absent field — is classified as a valid credential. -/
theorem login_200_unrecognized_is_valid (n : Nozzle) (u p : String) (w : World)
    (resp : HttpResponse) (r : OktaAuthResponse)
    (hlim : w.limiterResult = none)
    (hval : ValidateURLSuffix (authURL n) ".okta.com" = .ok ())
    (htr : w.transport (buildRequest n u p) = .ok resp)
    (hst : resp.statusCode = 200)
    (hdec : decodeBody resp.body = .ok r)
    (h1 : r.status ≠ "LOCKED_OUT") (h2 : r.status ≠ "MFA_REQUIRED") :
    (n.Login u p w).fst =
      .ok { valid := true, mfa := false, locked := false, rateLimited := false,
            metadata := r.embedded } := by
  simp [Nozzle.Login, hlim, hval, htr, hst, hdec, h1, h2]

/-- Witness for C10: a 200 response with body `\x7b\x7d` leaves the decoded
status empty and is classified as a valid credential. -/
theorem login_200_unrecognized_is_valid_witness :
    (Nozzle.Login ⟨"example", FrozenUserAgent⟩ "u" "p"
        (respWorld 200 (some (.obj [])))).fst =
      .ok { valid := true, mfa := false, locked := false, rateLimited := false,
            metadata := [] } :=
  login_200_unrecognized_is_valid ⟨"example", FrozenUserAgent⟩ "u" "p"
    (respWorld 200 (some (.obj []))) ⟨200, some (.obj [])⟩ ⟨"", "", []⟩
    rfl rfl rfl rfl rfl (by decide) (by decide)

end Okta
